import Mathlib

/-!
Verification of the report-aggregation and caching core of trivy-glass.

The embedding models the two cache-backed report-loading modules:
the primary redis-backed implementation (`loadReports`,
`listAllAquaSecurityCRDs`, `extractValue`, `getColumnDefinitions`) and the
simplified in-process variant (`loadReportsSimple`).  External effects
(kubernetes API calls, redis operations, the process clock) are passed in
explicitly through environment records; a thrown JS exception is modelled
as `Except.error`.
-/

namespace TrivyGlass

/-- JSON-like runtime values (the `unknown` values the TS code traverses). -/
inductive JSValue where
  | null
  | bool (b : Bool)
  | num (n : Int)
  | str (s : String)
  | arr (elems : List JSValue)
  | obj (fields : List (String × JSValue))

/-- A JS object value, as an insertion-ordered field list. -/
abbrev JSObj := List (String × JSValue)

/-- JS truthiness of a modelled value. -/
def jsTruthy : JSValue → Bool
  | .null => false
  | .bool b => b
  | .num n => n != 0
  | .str s => s != ""
  | .arr _ => true
  | .obj _ => true

/-- Whether `typeof value === 'object'` holds in JS for the value. -/
def jsIsObjectType : JSValue → Bool
  | .null => true
  | .arr _ => true
  | .obj _ => true
  | _ => false

/-- First-occurrence field lookup in a JS object (JS property access). -/
def objGet? : JSObj → String → Option JSValue
  | [], _ => none
  | (k', v) :: rest, k => if k' == k then some v else objGet? rest k

/-- Numeric value of a digit list (little helper for index parsing). -/
def digitsVal (l : List Char) : Nat :=
  l.foldl (fun n c => n * 10 + (c.toNat - 48)) 0

/-- Whether a character list is the canonical decimal form of a natural
number (all digits, non-empty, no leading zero except "0") — the strings
that denote array index properties in JS. -/
def isCanonicalIndex (l : List Char) : Bool :=
  l.all (fun c => c.isDigit) && !l.isEmpty && (l.head? != some '0' || l == ['0'])

/-- Combined `part in value` membership test and `value[part]` access:
`none` when the property is absent. Arrays expose `length` and canonical
numeric indices, objects expose their fields. -/
def jsIndex? : JSValue → String → Option JSValue
  | .obj fields, part => objGet? fields part
  | .arr elems, part =>
      if part == "length" then some (.num elems.length)
      else if isCanonicalIndex part.data then
        let i := digitsVal part.data
        if h : i < elems.length then some (elems.get ⟨i, h⟩) else none
      else none
  | _, _ => none

/-- The traversal loop of `extractValue`: walk the remaining dot-separated
segments, requiring at each step a truthy object-typed value containing the
segment (`value && typeof value === 'object' && part in value`). -/
def walkPath : JSValue → List String → Option JSValue
  | v, [] => some v
  | v, part :: rest =>
      if jsTruthy v && jsIsObjectType v then
        match jsIndex? v part with
        | some v' => walkPath v' rest
        | none => none
      else none

/-- Substring containment on strings, modelling JS `String.prototype.includes`. -/
def strContains (s pat : String) : Bool :=
  (List.range (s.data.length + 1)).any (fun i => pat.data.isPrefixOf (s.data.drop i))

/-- Suffix test on strings, modelling JS `String.prototype.endsWith`. -/
def jsEndsWith (s pat : String) : Bool :=
  pat.data.isSuffixOf s.data

/-- Split a character list at every occurrence of a separator character. -/
def splitCharsOn (sep : Char) : List Char → List Char → List String
  | [], acc => [String.mk acc.reverse]
  | c :: cs, acc =>
      if c == sep then String.mk acc.reverse :: splitCharsOn sep cs []
      else splitCharsOn sep cs (c :: acc)

/-- JS `String.prototype.split` with a one-character separator. -/
def jsSplit (s : String) (sep : Char) : List String :=
  splitCharsOn sep s.data []

/-- An abstract model of the JS `Date` runtime: `parse` gives the epoch
value `new Date(v)` would hold (or `none` for an invalid date), and
`toLocale` is `Date.prototype.toLocaleString` on a valid date. -/
structure DateModel where
  parse : JSValue → Option Nat
  toLocale : Nat → String

/-- The string `new Date(v).toLocaleString()` yields under a date model:
an invalid date renders as `"Invalid Date"`. -/
def jsDateToLocaleString (dm : DateModel) (v : JSValue) : String :=
  match dm.parse v with
  | some t => dm.toLocale t
  | none => "Invalid Date"

/-- `extractValue(obj, jsonPath)` from the primary module: guard falsy
inputs, split the path on dots and drop the leading (root) segment, walk
the segments, then reformat timestamp-like results through `Date`. -/
def extractValue (dm : DateModel) (obj : JSValue) (jsonPath : String) : Option JSValue :=
  if !jsTruthy obj || jsonPath == "" then none
  else
    let parts := (jsSplit jsonPath '.').drop 1
    match walkPath obj parts with
    | none => none
    | some value =>
        if jsTruthy value && (jsEndsWith jsonPath "Timestamp" || strContains jsonPath "creation") then
          let s := jsDateToLocaleString dm value
          some (if s == "" then value else .str s)
        else some value

/-- Concrete date model: a minimal ISO `YYYY-MM-DD...` parser for strings,
numbers as epoch values, and a `M/D/YYYY`-shaped locale rendering. -/
def isoParse (s : String) : Option Nat :=
  match jsSplit s '-' with
  | y :: m :: d :: _ =>
      let yc := y.data
      let mc := m.data
      let dc := (d.data.takeWhile (fun c => c.isDigit))
      if yc.all (fun c => c.isDigit) && yc.length == 4 && mc.all (fun c => c.isDigit) &&
          mc.length == 2 && !dc.isEmpty then
        let mn := digitsVal mc
        let dn := digitsVal dc
        if 1 ≤ mn && mn ≤ 12 && 1 ≤ dn && dn ≤ 31 then
          some (digitsVal yc * 10000 + mn * 100 + dn)
        else none
      else none
  | _ => none

/-- Concrete locale rendering used by the concrete date model. -/
def localeFormat (t : Nat) : String :=
  toString (t / 100 % 100) ++ "/" ++ toString (t % 100) ++ "/" ++ toString (t / 10000)

/-- Concrete date model instantiating the JS `Date` runtime behaviour. -/
def jsDateModel : DateModel where
  parse := fun v =>
    match v with
    | .num n => some n.toNat
    | .str s => isoParse s
    | .bool b => if b then some 1 else some 0
    | _ => none
  toLocale := localeFormat

/-- `ColumnDefinition` from the primary module. -/
structure ColumnDefinition where
  name : String
  description : Option String
  jsonPath : String
  type : String
  priority : Option Int
deriving DecidableEq

/-- A printer-column entry as served by the kubernetes API
(`additionalPrinterColumns` items); `format` exists there but is dropped
by the projection. -/
structure APIPrinterColumn where
  name : String
  description : Option String
  jsonPath : String
  type : String
  format : Option String
  priority : Option Int

/-- One entry of `spec.versions` of a CRD object. -/
structure CRDVersionInfo where
  name : String
  additionalPrinterColumns : Option (List APIPrinterColumn)

/-- The `spec.names` block of a CRD object. -/
structure CRDNames where
  plural : String

/-- The `spec` block of a CRD object; `scope` is `""` when absent (falsy). -/
structure CRDSpec where
  group : String
  scope : String
  versions : List CRDVersionInfo
  names : CRDNames

/-- The `metadata` block of a CRD object. -/
structure CRDObjectMeta where
  name : String

/-- A CRD object as returned in the cluster-wide CRD list. -/
structure CRDItem where
  metadata : CRDObjectMeta
  spec : CRDSpec

/-- `CRDMetadata` from the primary module. -/
structure CRDMetadata where
  group : String
  plural : String
  columns : List ColumnDefinition
  scope : String
deriving DecidableEq

/-- `getColumnDefinitions(versionInfo)`: empty when the version info or its
printer-column array is absent, otherwise a field-wise projection of each
column. -/
def getColumnDefinitions : Option CRDVersionInfo → List ColumnDefinition
  | none => []
  | some versionInfo =>
      match versionInfo.additionalPrinterColumns with
      | none => []
      | some cols =>
          cols.map (fun col =>
            { name := col.name
              description := col.description
              jsonPath := col.jsonPath
              type := col.type
              priority := col.priority })

/-- The per-CRD mapping step of `listAllAquaSecurityCRDs`. -/
def crdToMetadata (crd : CRDItem) : CRDMetadata :=
  let versionInfo := crd.spec.versions.find? (fun v => v.name == "v1alpha1")
  { group := "aquasecurity.github.io"
    plural := crd.spec.names.plural
    columns := getColumnDefinitions versionInfo
    scope := crd.spec.scope }

/-- The filter-and-map pipeline of `listAllAquaSecurityCRDs` over the CRD
items fetched from the cluster. -/
def aquaFilterMap (items : List CRDItem) : List CRDMetadata :=
  (items.filter (fun crd =>
    crd.spec.group == "aquasecurity.github.io" && crd.spec.scope != "Namespaced")).map
    crdToMetadata

/-- `ReportsData` from the primary module; manifests are projected records. -/
structure ReportsData where
  manifests : List JSObj
  clusterName : String
  scope : String
  error : Option String
  resource : Option String

/-- The redis store restricted to the `reports:<plural>` key family: each
key holds an absolute expiry instant and the stored payload. -/
abbrev ReportsCache := String → Option (Nat × ReportsData)

/-- `redisClient.get` on the reports store at an instant: a hit only while
the entry is not yet expired (redis enforces the TTL itself). -/
def redisGet (c : ReportsCache) (now : Nat) (k : String) : Option ReportsData :=
  match c k with
  | some (expiry, d) => if now < expiry then some d else none
  | none => none

/-- `redisClient.setEx` on the reports store: full overwrite of the key
with expiry `now + ttl`. -/
def redisSetEx (c : ReportsCache) (now ttl : Nat) (k : String) (d : ReportsData) :
    ReportsCache :=
  fun k' => if k' == k then some (now + ttl, d) else c k'

/-- The cache key `reports:<plural>`. -/
def REPORTS_KEY (crdPlural : String) : String := "reports:" ++ crdPlural

/-- The default columns substituted when a CRD declares no printer columns. -/
def defaultColumns : List ColumnDefinition :=
  [{ name := "Name", description := none, jsonPath := ".metadata.name",
     type := "string", priority := none },
   { name := "Age", description := none, jsonPath := ".metadata.creationTimestamp",
     type := "date", priority := none }]

/-- `item.metadata || {}`: the passthrough metadata of a fetched instance. -/
def metaOf (item : JSObj) : JSValue :=
  match objGet? item "metadata" with
  | some v => if jsTruthy v then v else .obj []
  | none => .obj []

/-- JS object property assignment `r[k] = v`: overwrite in place if the key
exists (keeping its position), else append. -/
def jsObjSet : JSObj → String → JSValue → JSObj
  | [], k, v => [(k, v)]
  | (k', v') :: rest, k, v =>
      if k' == k then (k, v) :: rest else (k', v') :: jsObjSet rest k v

/-- The per-instance projection of `loadReports`: start from the
passthrough `metadata` key, then assign each column's extracted value
(or `null`) under the column's name, in column order. -/
def projectItem (dm : DateModel) (columns : List ColumnDefinition) (item : JSObj) : JSObj :=
  columns.foldl
    (fun reportData col =>
      let value := extractValue dm (.obj item) col.jsonPath
      jsObjSet reportData col.name (value.getD .null))
    [("metadata", metaOf item)]

/-- The response of `getClusterCustomObject` for the CRD itself: the cast
`(crdResponse as {spec}).spec` can be absent. -/
structure CRDResponse where
  spec : Option CRDSpec

/-- The response of an instance-listing call: `.items` can be absent. -/
structure ListResponse where
  items : Option (List JSObj)

/-- Environment of one `loadReports` run: the ambient cluster name and
clock, the configured TTL, the outcome of each redis operation the run may
perform (a `some` fault means that call throws), and the outcome of each
kubernetes API call it may perform. -/
structure LoadEnv where
  clusterName : String
  now : Nat
  cacheDuration : Nat
  getFault : Option String
  setFault1 : Option String
  setFault2 : Option String
  getCRD : Except String CRDResponse
  listNamespaced : Except String ListResponse
  listCluster : Except String ListResponse

/-- Observable outcome of one `loadReports` run: the value returned (or
the exception propagated), the reports store afterwards, and how many
kubernetes API calls were made. -/
structure LoadOutcome where
  ret : Except String ReportsData
  cache : ReportsCache
  apiCalls : Nat

/-- The error payload built in the `catch` block of `loadReports`. -/
def errorPayload (crdPlural message : String) : ReportsData where
  manifests := []
  clusterName := "Unknown Cluster"
  scope := "Unknown"
  error := some message
  resource := some crdPlural

/-- The `catch` block of `loadReports`: build the error payload, cache it
under the same key and TTL, and return it; a failing `setEx` here
propagates. -/
def loadCatch (env : LoadEnv) (c : ReportsCache) (crdPlural message : String)
    (calls : Nat) : LoadOutcome :=
  match env.setFault2 with
  | some e₂ => ⟨.error e₂, c, calls⟩
  | none =>
      let data := errorPayload crdPlural message
      ⟨.ok data, redisSetEx c env.now env.cacheDuration (REPORTS_KEY crdPlural) data, calls⟩

/-- `loadReports(crdPlural)` from the primary module: cache check, CRD
schema resolution, column projection with default fallback, scope-directed
instance listing with local downgrade to `[]`, per-instance projection,
and negative caching of the top-level failure path. -/
def loadReports (dm : DateModel) (env : LoadEnv) (c : ReportsCache) (crdPlural : String) :
    LoadOutcome :=
  match env.getFault with
  | some e => ⟨.error e, c, 0⟩
  | none =>
  match redisGet c env.now (REPORTS_KEY crdPlural) with
  | some d => ⟨.ok d, c, 0⟩
  | none =>
      let crdName := crdPlural ++ ".aquasecurity.github.io"
      match env.getCRD with
      | .error e => loadCatch env c crdPlural e 1
      | .ok crdResponse =>
          match crdResponse.spec with
          | none => loadCatch env c crdPlural
              ("CRD " ++ crdName ++ " did not return a valid spec") 1
          | some crdSpec =>
              match crdSpec.versions.find? (fun v => v.name == "v1alpha1") with
              | none => loadCatch env c crdPlural
                  ("No v1alpha1 version found for " ++ crdName) 1
              | some versionInfo =>
                  let columns₀ := getColumnDefinitions (some versionInfo)
                  let columns := if columns₀.length == 0 then defaultColumns else columns₀
                  let scope := if crdSpec.scope == "" then "Cluster" else crdSpec.scope
                  let items : List JSObj :=
                    if scope == "Namespaced" then
                      match env.listNamespaced with
                      | .ok result => result.items.getD []
                      | .error _ => []
                    else
                      match env.listCluster with
                      | .ok result => result.items.getD []
                      | .error _ => []
                  let filteredReports := items.map (projectItem dm columns)
                  let data : ReportsData :=
                    { manifests := filteredReports
                      clusterName := env.clusterName
                      scope := scope
                      error := none
                      resource := some crdPlural }
                  match env.setFault1 with
                  | some e => loadCatch env c crdPlural e 2
                  | none =>
                      ⟨.ok data,
                       redisSetEx c env.now env.cacheDuration (REPORTS_KEY crdPlural) data, 2⟩

/-- Environment of one `listAllAquaSecurityCRDs` run. -/
structure ListCRDsEnv where
  now : Nat
  cacheDuration : Nat
  getFault : Option String
  setFault : Option String
  listCRDs : Except String (Option (List CRDItem))

/-- The redis store restricted to the single discovery key
`aqua_security_crds`. -/
abbrev CrdsCache := Option (Nat × List CRDMetadata)

/-- `redisClient.get` on the discovery key at an instant. -/
def crdsGet (c : CrdsCache) (now : Nat) : Option (List CRDMetadata) :=
  match c with
  | some (expiry, l) => if now < expiry then some l else none
  | none => none

/-- Observable outcome of one `listAllAquaSecurityCRDs` run. -/
structure ListOutcome where
  ret : Except String (List CRDMetadata)
  cache : CrdsCache
  apiCalls : Nat

/-- `listAllAquaSecurityCRDs()` from the primary module: cache check,
cluster-wide CRD list, filter to the vendor group and non-namespaced
scope, per-CRD metadata; any failure inside the try (the API call or the
`setEx`) degrades the whole operation to an uncached empty list. -/
def listAllAquaSecurityCRDs (env : ListCRDsEnv) (c : CrdsCache) : ListOutcome :=
  match env.getFault with
  | some e => ⟨.error e, c, 0⟩
  | none =>
  match crdsGet c env.now with
  | some cachedData => ⟨.ok cachedData, c, 0⟩
  | none =>
      match env.listCRDs with
      | .error _ => ⟨.ok [], c, 1⟩
      | .ok itemsOpt =>
          let crds := aquaFilterMap (itemsOpt.getD [])
          match env.setFault with
          | some _ => ⟨.ok [], c, 1⟩
          | none => ⟨.ok crds, some (env.now + env.cacheDuration, crds), 1⟩

/-- `invalidateCache(crdPlural)` from the primary module: delete the one
reports key. -/
def invalidateCache (c : ReportsCache) (crdPlural : String) : ReportsCache :=
  fun k => if k == REPORTS_KEY crdPlural then none else c k

/-- JS `parseInt(s, 10)`: value of the leading digit run, `NaN` (`none`)
when there is none. -/
def jsParseInt10 (s : String) : Option Nat :=
  let ds := s.data.takeWhile (fun c => c.isDigit)
  if ds.isEmpty then none else some (digitsVal ds)

/-- `CACHE_DURATION` of the primary module:
`parseInt(process.env.CACHE_DURATION || '1800', 10)`. -/
def CACHE_DURATION (envVar : Option String) : Option Nat :=
  jsParseInt10 (match envVar with
    | none => "1800"
    | some s => if s == "" then "1800" else s)

/-- `CACHE_DURATION` of the simplified variant: `5 * 60 * 1000`
milliseconds. -/
def CACHE_DURATION_SIMPLE_MS : Nat := 5 * 60 * 1000

/-- The payload shape of the simplified variant. -/
structure SimpleData where
  reports : List JSValue
  clusterName : String
  error : Option String

/-- One entry of the simplified variant's in-process cache map. -/
structure SimpleCacheEntry where
  data : SimpleData
  timestamp : Nat

/-- The simplified variant's in-process cache map. -/
abbrev SimpleCache := String → Option SimpleCacheEntry

/-- Environment of one run of the simplified `loadReports`. -/
structure SimpleEnv where
  now : Nat
  currentClusterName : Option String
  listResult : Except String (Option (List JSValue))

/-- The fetch-and-store path of the simplified `loadReports`. -/
def fetchSimple (env : SimpleEnv) (c : SimpleCache) (crdPlural : String) :
    SimpleData × SimpleCache × Nat :=
  let clusterName := env.currentClusterName.getD "Unknown Cluster"
  let data : SimpleData :=
    match env.listResult with
    | .ok result => { reports := result.getD [], clusterName := clusterName, error := none }
    | .error e => { reports := [], clusterName := clusterName, error := some e }
  (data, fun k => if k == crdPlural then some ⟨data, env.now⟩ else c k, 1)

/-- `loadReports(crdPlural)` from the simplified variant: lazy expiry by
comparing `now - timestamp` against the fixed duration, then a single
all-namespaces list call with the error downgraded into the payload. -/
def loadReportsSimple (env : SimpleEnv) (c : SimpleCache) (crdPlural : String) :
    SimpleData × SimpleCache × Nat :=
  match c crdPlural with
  | some entry =>
      if env.now - entry.timestamp < CACHE_DURATION_SIMPLE_MS then (entry.data, c, 0)
      else fetchSimple env c crdPlural
  | none => fetchSimple env c crdPlural

/-- The failure message with which one `loadReports` run reaches its
top-level `catch`, if any: a failing CRD lookup, a missing spec, a missing
`v1alpha1` version, or (when all of those succeed) a failing first
`setEx`.  Characterises exactly the inputs on which the negative-caching
path runs. -/
def loadFailMsg (env : LoadEnv) (crdPlural : String) : Option String :=
  match env.getCRD with
  | .error e => some e
  | .ok crdResponse =>
      match crdResponse.spec with
      | none => some ("CRD " ++ (crdPlural ++ ".aquasecurity.github.io") ++ " did not return a valid spec")
      | some crdSpec =>
          match crdSpec.versions.find? (fun v => v.name == "v1alpha1") with
          | none => some ("No v1alpha1 version found for " ++ (crdPlural ++ ".aquasecurity.github.io"))
          | some _ => env.setFault1

/-- The last column of a list carrying a given name, if any: the one whose
assignment survives in the projected record. -/
def lastValue? (name : String) : List ColumnDefinition → Option ColumnDefinition
  | [] => none
  | col :: cols =>
      match lastValue? name cols with
      | some col' => some col'
      | none => if col.name == name then some col else none

/-- The scope invariant claimed for every produced `ReportsData`. -/
def scopeOK (d : ReportsData) : Prop :=
  (d.scope = "Cluster" ∨ d.scope = "Namespaced" ∨ d.scope = "Unknown")
  ∧ (d.scope = "Unknown" → d.error ≠ none)

/-- The record used by the C2 amended witness. -/
def c2WitnessRecord : JSValue := .obj [("metadata", .obj [("name", .str "r1")])]

/-- A well-formed namespaced CRD spec used by several witnesses. -/
def vulnSpec : CRDSpec where
  group := "aquasecurity.github.io"
  scope := "Namespaced"
  versions := [⟨"v1alpha1", some [⟨"Repository", none, ".report.artifact.repository",
    "string", none, none⟩]⟩]
  names := ⟨"vulnerabilityreports"⟩

/-- Environment of the C1 witness: the CRD lookup itself fails. -/
def c1Env : LoadEnv where
  clusterName := "prod"
  now := 0
  cacheDuration := 1800
  getFault := none
  setFault1 := none
  setFault2 := none
  getCRD := .error "vulnerabilityreports.aquasecurity.github.io not found"
  listNamespaced := .error "unused"
  listCluster := .error "unused"

/-- Environment of the C4 counterexample: the initial cache read throws. -/
def c4Env : LoadEnv where
  clusterName := "prod"
  now := 0
  cacheDuration := 1800
  getFault := some "Redis connection refused"
  setFault1 := none
  setFault2 := none
  getCRD := .error "unused"
  listNamespaced := .error "unused"
  listCluster := .error "unused"

/-- Environment of the C4 counterexample for the discovery operation. -/
def c4ListEnv : ListCRDsEnv where
  now := 0
  cacheDuration := 1800
  getFault := some "Redis connection refused"
  setFault := none
  listCRDs := .error "unused"

/-- Environment of the C4 amended witness: the in-try `setEx` fails while
everything else succeeds. -/
def c4wEnv : LoadEnv where
  clusterName := "prod"
  now := 0
  cacheDuration := 1800
  getFault := none
  setFault1 := some "redis write failed"
  setFault2 := none
  getCRD := .ok ⟨some vulnSpec⟩
  listNamespaced := .ok ⟨some []⟩
  listCluster := .error "unused"

/-- Cluster-scoped vendor CRD of the C5 witness. -/
def c5Crd1 : CRDItem where
  metadata := ⟨"clustercompliancereports.aquasecurity.github.io"⟩
  spec := { group := "aquasecurity.github.io", scope := "Cluster", versions := [],
            names := ⟨"clustercompliancereports"⟩ }

/-- Namespaced vendor CRD of the C5 witness. -/
def c5Crd2 : CRDItem where
  metadata := ⟨"vulnerabilityreports.aquasecurity.github.io"⟩
  spec := { group := "aquasecurity.github.io", scope := "Namespaced", versions := [],
            names := ⟨"vulnerabilityreports"⟩ }

/-- Environment of the C5 witness. -/
def c5Env : ListCRDsEnv where
  now := 0
  cacheDuration := 1800
  getFault := none
  setFault := none
  listCRDs := .ok (some [c5Crd1, c5Crd2])

/-- Environment of the C6 witness: schema resolution succeeds, both
instance-listing endpoints fail. -/
def c6Env : LoadEnv where
  clusterName := "prod"
  now := 0
  cacheDuration := 1800
  getFault := none
  setFault1 := none
  setFault2 := none
  getCRD := .ok ⟨some vulnSpec⟩
  listNamespaced := .error "the server is currently unable to handle the request"
  listCluster := .error "the server is currently unable to handle the request"

/-- First-call environment of the C7 witness. -/
def c7Env₁ : LoadEnv where
  clusterName := "prod"
  now := 100
  cacheDuration := 1800
  getFault := none
  setFault1 := none
  setFault2 := none
  getCRD := .ok ⟨some vulnSpec⟩
  listNamespaced := .ok ⟨some []⟩
  listCluster := .error "unused"

/-- Second-call environment of the C7 witness, 60 time units later with
the cluster API now failing (it must not be consulted). -/
def c7Env₂ : LoadEnv where
  clusterName := "prod"
  now := 160
  cacheDuration := 1800
  getFault := none
  setFault1 := none
  setFault2 := none
  getCRD := .error "cluster API unavailable"
  listNamespaced := .error "cluster API unavailable"
  listCluster := .error "cluster API unavailable"

/-- Simplified-variant environment of the C7 witness. -/
def c7SimpleEnv₁ : SimpleEnv where
  now := 0
  currentClusterName := some "prod"
  listResult := .ok (some [])

/-- Simplified-variant second-call environment of the C7 witness. -/
def c7SimpleEnv₂ : SimpleEnv where
  now := 1000
  currentClusterName := some "prod"
  listResult := .error "cluster API unavailable"

/-- Environment of the C8 witness: a successful namespaced run. -/
def c8Env : LoadEnv where
  clusterName := "prod"
  now := 100
  cacheDuration := 1800
  getFault := none
  setFault1 := none
  setFault2 := none
  getCRD := .ok ⟨some vulnSpec⟩
  listNamespaced := .ok ⟨some []⟩
  listCluster := .error "unused"

/-- Environment of the C9 counterexample: discovery misses the cache and
the cluster API fetch fails. -/
def c9Env : ListCRDsEnv where
  now := 0
  cacheDuration := 1800
  getFault := none
  setFault := none
  listCRDs := .error "connection refused"

/-- Environment of the C9 witness: a reports fetch that fails at schema
resolution, which must still produce a cache entry. -/
def c9wEnv : LoadEnv where
  clusterName := "prod"
  now := 7
  cacheDuration := 1800
  getFault := none
  setFault1 := none
  setFault2 := none
  getCRD := .error "not found"
  listNamespaced := .error "unused"
  listCluster := .error "unused"

/-- Environment of the C9 witness's discovery part: a failing fetch that
must leave the discovery key untouched. -/
def c9wListEnv : ListCRDsEnv where
  now := 7
  cacheDuration := 1800
  getFault := none
  setFault := none
  listCRDs := .error "etcdserver timed out"

theorem objGet_jsObjSet (r : JSObj) (k : String) (v : JSValue) (k' : String) :
    objGet? (jsObjSet r k v) k' = if k' == k then some v else objGet? r k' := by
  induction r with
  | nil =>
      by_cases h : k' = k
      · subst h; simp [jsObjSet, objGet?]
      · simp [jsObjSet, objGet?, h, Ne.symm h]
  | cons p rest ih =>
      obtain ⟨k₀, v₀⟩ := p
      by_cases h₀ : k₀ = k
      · subst h₀
        by_cases h' : k' = k₀
        · subst h'; simp [jsObjSet, objGet?]
        · simp [jsObjSet, objGet?, h', Ne.symm h']
      · by_cases h₁ : k₀ = k'
        · subst h₁
          simp [jsObjSet, objGet?, h₀, Ne.symm h₀]
        · simp [jsObjSet, objGet?, h₀, h₁, ih]

theorem objGet_projectFold (dm : DateModel) (item : JSObj) (name : String) :
    ∀ (cols : List ColumnDefinition) (r : JSObj),
      objGet? (cols.foldl (fun reportData col =>
          jsObjSet reportData col.name ((extractValue dm (.obj item) col.jsonPath).getD .null)) r)
        name
      = (match lastValue? name cols with
        | some col => some ((extractValue dm (.obj item) col.jsonPath).getD .null)
        | none => objGet? r name) := by
  intro cols
  induction cols with
  | nil => intro r; rfl
  | cons col cols ih =>
      intro r
      simp only [List.foldl_cons, lastValue?]
      rw [ih]
      cases h : lastValue? name cols with
      | some col' => rfl
      | none =>
          simp only [objGet_jsObjSet]
          by_cases hn : name = col.name
          · subst hn; simp
          · simp [hn, Ne.symm hn]

theorem redisGet_setEx_self (c : ReportsCache) (now ttl : Nat) (k : String)
    (d : ReportsData) (now' : Nat) :
    redisGet (redisSetEx c now ttl k d) now' k
      = if now' < now + ttl then some d else none := by
  simp [redisGet, redisSetEx]

/-- On a cache miss with all redis operations succeeding, `loadReports`
returns a payload and its final store is a full overwrite of the reports
key with that payload. -/
theorem loadReports_miss_ok (dm : DateModel) (env : LoadEnv) (c : ReportsCache) (p : String)
    (hget : env.getFault = none) (hs1 : env.setFault1 = none) (hs2 : env.setFault2 = none)
    (hmiss : redisGet c env.now (REPORTS_KEY p) = none) :
    ∃ d, (loadReports dm env c p).ret = .ok d
      ∧ (loadReports dm env c p).cache
          = redisSetEx c env.now env.cacheDuration (REPORTS_KEY p) d := by
  rcases hcrd : env.getCRD with e | crdResponse
  · simp only [loadReports, loadCatch, hget, hmiss, hcrd, hs2]
    exact ⟨_, rfl, rfl⟩
  · rcases hspec : crdResponse.spec with _ | crdSpec
    · simp only [loadReports, loadCatch, hget, hmiss, hcrd, hspec, hs2]
      exact ⟨_, rfl, rfl⟩
    · rcases hvi : crdSpec.versions.find? (fun v => v.name == "v1alpha1") with _ | versionInfo
      · simp only [loadReports, loadCatch, hget, hmiss, hcrd, hspec, hvi, hs2]
        exact ⟨_, rfl, rfl⟩
      · simp only [loadReports, loadCatch, hget, hmiss, hcrd, hspec, hvi, hs1]
        exact ⟨_, rfl, rfl⟩

/-- C10: `loadReports` builds each projected record by inserting the
passthrough `metadata` key first and then assigning each column's
extracted value (or null) under the column's name in column-list order;
a record field therefore holds the value of the last column bearing that
name (later assignments silently overwrite earlier ones, and a column
literally named `metadata` overwrites the passthrough entry). -/
theorem c10_projection_last_write_wins (dm : DateModel)
    (columns : List ColumnDefinition) (item : JSObj) (name : String) :
    objGet? (projectItem dm columns item) name
      = (match lastValue? name columns with
        | some col => some ((extractValue dm (.obj item) col.jsonPath).getD .null)
        | none => if name == "metadata" then some (metaOf item) else none) := by
  unfold projectItem
  rw [objGet_projectFold]
  cases lastValue? name columns with
  | some col => rfl
  | none =>
      by_cases h : name = "metadata"
      · subst h; simp [objGet?]
      · simp [objGet?, h, Ne.symm h]

/-- C2 counterexample: at the record `{xTimestamp: 5}` and path
`.xTimestamp` every segment exists and the nested value is the number 5,
yet `extractValue` does not return that exact value — the timestamp
post-processing replaces it with a formatted date string. -/
theorem c2_counterexample :
    walkPath (.obj [("xTimestamp", .num 5)]) ((jsSplit ".xTimestamp" '.').drop 1)
        = some (.num 5)
    ∧ extractValue jsDateModel (.obj [("xTimestamp", .num 5)]) ".xTimestamp"
        ≠ some (.num 5) := by
  refine ⟨rfl, fun h => ?_⟩
  have h' : some (JSValue.str "0/5/0") = some (JSValue.num 5) := h
  exact JSValue.noConfusion (Option.some.inj h')

/-- C2 (amended): `extractValue` is a total function; for a truthy record
and non-empty path, a missing intermediate step always yields `undefined`,
and whenever the path does not trigger the timestamp post-processing
(neither ends in `Timestamp` nor contains `creation`) extraction equals
pure traversal, so it returns the exact nested value whenever every
segment exists. -/
theorem c2_amended_extract_is_traversal (dm : DateModel) (obj : JSValue) (jsonPath : String)
    (hobj : jsTruthy obj = true) (hpath : jsonPath ≠ "") :
    (walkPath obj ((jsSplit jsonPath '.').drop 1) = none →
        extractValue dm obj jsonPath = none)
    ∧ (jsEndsWith jsonPath "Timestamp" = false → strContains jsonPath "creation" = false →
        extractValue dm obj jsonPath = walkPath obj ((jsSplit jsonPath '.').drop 1)) := by
  have hp : (jsonPath == "") = false := by simp [hpath]
  constructor
  · intro hw
    rw [List.drop_one] at hw
    simp [extractValue, hobj, hp, hw]
  · intro h1 h2
    simp only [extractValue, hobj, hp, h1, h2, Bool.not_true, Bool.or_self, Bool.or_false,
      Bool.and_false, Bool.false_or, if_false]
    cases hw : walkPath obj ((jsSplit jsonPath '.').drop 1) with
    | none => rfl
    | some v => rfl

/-- C2 amended witness: concrete run of the amended theorem at the record
`{metadata: {name: "r1"}}` and path `.metadata.name`. -/
theorem c2_amended_witness :
    extractValue jsDateModel c2WitnessRecord ".metadata.name"
      = walkPath c2WitnessRecord ((jsSplit ".metadata.name" '.').drop 1) :=
  (c2_amended_extract_is_traversal jsDateModel c2WitnessRecord ".metadata.name"
    rfl (by decide)).2 rfl rfl

/-- C3: at the record `{createdTimestamp: "garbage"}` and path
`.createdTimestamp` the timestamp rule applies and the value cannot be
parsed as a date, yet the code returns the string `Invalid Date` instead
of passing the original value through — `toLocaleString` on an invalid
date yields the truthy string `Invalid Date`, so the `|| value` fallback
in the source can never fire. -/
theorem c3_unparseable_not_passed_through :
    extractValue jsDateModel (.obj [("createdTimestamp", .str "garbage")]) ".createdTimestamp"
        = some (.str "Invalid Date")
    ∧ extractValue jsDateModel (.obj [("createdTimestamp", .str "garbage")]) ".createdTimestamp"
        ≠ some (.str "garbage") := by
  refine ⟨rfl, fun h => ?_⟩
  have h' : some (JSValue.str "Invalid Date") = some (JSValue.str "garbage") := h
  have h'' := JSValue.str.inj (Option.some.inj h')
  exact absurd h'' (by decide)

/-- C1: on a cache miss, when a `loadReports` run reaches its top-level
catch with message `msg` (a failing CRD lookup, a missing spec, a missing
`v1alpha1` version, or the uncaught first-`setEx` failure), it returns
exactly the payload `{manifests: [], clusterName: "Unknown Cluster",
scope: "Unknown", error: msg, resource: plural}` and writes that same
payload under `reports:<plural>` with the standard TTL used for
successful results. -/
theorem c1_error_payload_negative_cached (dm : DateModel) (env : LoadEnv) (c : ReportsCache)
    (p msg : String)
    (hget : env.getFault = none)
    (hmiss : redisGet c env.now (REPORTS_KEY p) = none)
    (hs2 : env.setFault2 = none)
    (hfail : loadFailMsg env p = some msg) :
    (loadReports dm env c p).ret = .ok (errorPayload p msg)
    ∧ (loadReports dm env c p).cache (REPORTS_KEY p)
        = some (env.now + env.cacheDuration, errorPayload p msg) := by
  rcases hcrd : env.getCRD with e | crdResponse
  · simp only [loadFailMsg, hcrd] at hfail
    cases hfail
    refine ⟨?_, ?_⟩ <;>
      simp [loadReports, loadCatch, hget, hmiss, hcrd, hs2, redisSetEx]
  · rcases hspec : crdResponse.spec with _ | crdSpec
    · simp only [loadFailMsg, hcrd, hspec] at hfail
      cases hfail
      refine ⟨?_, ?_⟩ <;>
        simp [loadReports, loadCatch, hget, hmiss, hcrd, hspec, hs2, redisSetEx]
    · rcases hvi : crdSpec.versions.find? (fun v => v.name == "v1alpha1") with _ | versionInfo
      · simp only [loadFailMsg, hcrd, hspec, hvi] at hfail
        cases hfail
        refine ⟨?_, ?_⟩ <;>
          simp [loadReports, loadCatch, hget, hmiss, hcrd, hspec, hvi, hs2, redisSetEx]
      · simp only [loadFailMsg, hcrd, hspec, hvi] at hfail
        refine ⟨?_, ?_⟩ <;>
          simp [loadReports, loadCatch, hget, hmiss, hcrd, hspec, hvi, hfail, hs2, redisSetEx]

/-- C1 witness: concrete failing run showing the returned error payload
and the cache entry written with the standard TTL. -/
theorem c1_witness :
    (loadReports jsDateModel c1Env (fun _ => none) "vulnerabilityreports").ret
        = .ok (errorPayload "vulnerabilityreports"
            "vulnerabilityreports.aquasecurity.github.io not found")
    ∧ (loadReports jsDateModel c1Env (fun _ => none) "vulnerabilityreports").cache
        (REPORTS_KEY "vulnerabilityreports")
        = some (0 + 1800, errorPayload "vulnerabilityreports"
            "vulnerabilityreports.aquasecurity.github.io not found") :=
  c1_error_payload_negative_cached jsDateModel c1Env (fun _ => none) "vulnerabilityreports"
    "vulnerabilityreports.aquasecurity.github.io not found" rfl rfl rfl rfl

/-- C4 counterexample: a cache-store failure on the initial read — which
sits outside both try blocks — propagates to the caller of either primary
operation as a thrown error instead of being treated as a cache miss. -/
theorem c4_counterexample :
    (loadReports jsDateModel c4Env (fun _ => none) "vulnerabilityreports").ret
        = .error "Redis connection refused"
    ∧ (listAllAquaSecurityCRDs c4ListEnv none).ret = .error "Redis connection refused" :=
  ⟨rfl, rfl⟩

/-- C4 (amended): a cache-store failure inside the try blocks (a failing
`setEx` while storing a fresh result) is never propagated — whenever the
initial cache read succeeds (and, for `loadReports`, the error-path
`setEx` succeeds), both primary operations return a well-typed result
object; only the initial cache read (or the error-path `setEx`) can throw. -/
theorem c4_amended_no_throw :
    (∀ (dm : DateModel) (env : LoadEnv) (c : ReportsCache) (p : String),
        env.getFault = none → env.setFault2 = none →
        ∃ d, (loadReports dm env c p).ret = .ok d)
    ∧ ∀ (env : ListCRDsEnv) (c : CrdsCache),
        env.getFault = none → ∃ l, (listAllAquaSecurityCRDs env c).ret = .ok l := by
  constructor
  · intro dm env c p hget hs2
    rcases hhit : redisGet c env.now (REPORTS_KEY p) with _ | d
    · rcases hcrd : env.getCRD with e | crdResponse
      · simp only [loadReports, loadCatch, hget, hhit, hcrd, hs2]
        exact ⟨_, rfl⟩
      · rcases hspec : crdResponse.spec with _ | crdSpec
        · simp only [loadReports, loadCatch, hget, hhit, hcrd, hspec, hs2]
          exact ⟨_, rfl⟩
        · rcases hvi : crdSpec.versions.find? (fun v => v.name == "v1alpha1") with _ | versionInfo
          · simp only [loadReports, loadCatch, hget, hhit, hcrd, hspec, hvi, hs2]
            exact ⟨_, rfl⟩
          · rcases hs1 : env.setFault1 with _ | e₁
            · simp only [loadReports, loadCatch, hget, hhit, hcrd, hspec, hvi, hs1]
              exact ⟨_, rfl⟩
            · simp only [loadReports, loadCatch, hget, hhit, hcrd, hspec, hvi, hs1, hs2]
              exact ⟨_, rfl⟩
    · simp only [loadReports, hget, hhit]
      exact ⟨_, rfl⟩
  · intro env c hget
    rcases hhit : crdsGet c env.now with _ | l
    · rcases hlist : env.listCRDs with e | itemsOpt
      · simp only [listAllAquaSecurityCRDs, hget, hhit, hlist]
        exact ⟨_, rfl⟩
      · rcases hsf : env.setFault with _ | e₁
        · simp only [listAllAquaSecurityCRDs, hget, hhit, hlist, hsf]
          exact ⟨_, rfl⟩
        · simp only [listAllAquaSecurityCRDs, hget, hhit, hlist, hsf]
          exact ⟨_, rfl⟩
    · simp only [listAllAquaSecurityCRDs, hget, hhit]
      exact ⟨_, rfl⟩

/-- C4 amended witness: concrete run in which a cache-store write failure
occurs inside the try block, yet the operation still returns a well-typed
result instead of throwing. -/
theorem c4_amended_witness :
    (loadReports jsDateModel c4wEnv (fun _ => none) "vulnerabilityreports").ret
      = .ok (errorPayload "vulnerabilityreports" "redis write failed") := by
  have h := c4_amended_no_throw.1 jsDateModel c4wEnv (fun _ => none)
    "vulnerabilityreports" rfl rfl
  obtain ⟨d, hd⟩ := h
  exact rfl

/-- C5: on a cache miss with the cluster API returning a CRD list,
discovery returns metadata exactly for the CRDs whose group is
`aquasecurity.github.io` and whose scope is not `Namespaced`; in
particular, of one cluster-scoped and one namespaced CRD in the vendor
group, only the cluster-scoped one survives. -/
theorem c5_discovery_filter (env : ListCRDsEnv) (c : CrdsCache) (items : List CRDItem)
    (hget : env.getFault = none) (hmiss : crdsGet c env.now = none)
    (hlist : env.listCRDs = .ok (some items)) (hset : env.setFault = none) :
    ((listAllAquaSecurityCRDs env c).ret = .ok (aquaFilterMap items))
    ∧ (∀ m : CRDMetadata, m ∈ aquaFilterMap items ↔
        ∃ crd, crd ∈ items ∧ crd.spec.group = "aquasecurity.github.io"
          ∧ crd.spec.scope ≠ "Namespaced" ∧ m = crdToMetadata crd)
    ∧ ∀ crd₁ crd₂ : CRDItem,
        crd₁.spec.group = "aquasecurity.github.io" → crd₁.spec.scope = "Cluster" →
        crd₂.spec.group = "aquasecurity.github.io" → crd₂.spec.scope = "Namespaced" →
        aquaFilterMap [crd₁, crd₂] = [crdToMetadata crd₁] := by
  refine ⟨?_, ?_, ?_⟩
  · simp only [listAllAquaSecurityCRDs, hget, hmiss, hlist, hset]
    rfl
  · intro m
    simp only [aquaFilterMap, List.mem_map, List.mem_filter, Bool.and_eq_true,
      beq_iff_eq, bne_iff_ne]
    constructor
    · rintro ⟨crd, ⟨hmem, hgr, hsc⟩, hm⟩
      exact ⟨crd, hmem, hgr, hsc, hm.symm⟩
    · rintro ⟨crd, hmem, hgr, hsc, hm⟩
      exact ⟨crd, ⟨hmem, hgr, hsc⟩, hm.symm⟩
  · intro crd₁ crd₂ h1g h1s h2g h2s
    have hcn : (("Cluster" : String) != "Namespaced") = true := by decide
    simp [aquaFilterMap, List.filter, h1g, h1s, h2g, h2s, hcn]

/-- C5 witness: the two-CRD discovery scenario, keeping only the
cluster-scoped one. -/
theorem c5_witness :
    (listAllAquaSecurityCRDs c5Env none).ret = .ok [crdToMetadata c5Crd1] := by
  have h := c5_discovery_filter c5Env none [c5Crd1, c5Crd2] rfl rfl rfl rfl
  rw [h.1, h.2.2 c5Crd1 c5Crd2 rfl rfl rfl rfl]

/-- C6: when schema resolution succeeds (CRD lookup returns a spec with a
`v1alpha1` version) but the instance-listing call fails, `loadReports`
does not fail: it returns `ReportsData` with empty manifests, no error
field, and the CRD's real scope. -/
theorem c6_list_failure_downgraded (dm : DateModel) (env : LoadEnv) (c : ReportsCache)
    (p : String) (crdResponse : CRDResponse) (crdSpec : CRDSpec)
    (versionInfo : CRDVersionInfo) (eNs eCl : String)
    (hget : env.getFault = none)
    (hmiss : redisGet c env.now (REPORTS_KEY p) = none)
    (hcrd : env.getCRD = .ok crdResponse)
    (hspec : crdResponse.spec = some crdSpec)
    (hvi : crdSpec.versions.find? (fun v => v.name == "v1alpha1") = some versionInfo)
    (hNs : env.listNamespaced = .error eNs)
    (hCl : env.listCluster = .error eCl)
    (hs1 : env.setFault1 = none)
    (hscope : crdSpec.scope ≠ "") :
    (loadReports dm env c p).ret
      = .ok { manifests := [], clusterName := env.clusterName, scope := crdSpec.scope,
              error := none, resource := some p } := by
  have h1 : (crdSpec.scope == "") = false := by simp [hscope]
  simp [loadReports, hget, hmiss, hcrd, hspec, hvi, hNs, hCl, hs1, h1]

/-- C6 witness: concrete run with a failing instance listing, returning
an empty, error-free payload with the CRD's real scope. -/
theorem c6_witness :
    (loadReports jsDateModel c6Env (fun _ => none) "vulnerabilityreports").ret
      = .ok { manifests := [], clusterName := "prod", scope := vulnSpec.scope,
              error := none, resource := some "vulnerabilityreports" } :=
  c6_list_failure_downgraded jsDateModel c6Env (fun _ => none) "vulnerabilityreports"
    ⟨some vulnSpec⟩ vulnSpec ⟨"v1alpha1", some [⟨"Repository", none,
      ".report.artifact.repository", "string", none, none⟩]⟩
    "the server is currently unable to handle the request"
    "the server is currently unable to handle the request"
    rfl rfl rfl rfl rfl rfl rfl rfl (by decide)

/-- C7: with a working cache, two `loadReports` calls within the TTL
window and no intervening invalidation issue at most one cluster-API call
sequence — the second call returns the first call's payload and performs
no cluster-API call; likewise for the simplified in-process variant. -/
theorem c7_second_call_served_from_cache (dm : DateModel) (env₁ env₂ : LoadEnv)
    (c : ReportsCache) (p : String)
    (h₁g : env₁.getFault = none) (h₁s1 : env₁.setFault1 = none) (h₁s2 : env₁.setFault2 = none)
    (hmiss : redisGet c env₁.now (REPORTS_KEY p) = none)
    (h₂g : env₂.getFault = none)
    (hwin : env₂.now < env₁.now + env₁.cacheDuration) :
    ((loadReports dm env₂ (loadReports dm env₁ c p).cache p).ret
        = (loadReports dm env₁ c p).ret
      ∧ (loadReports dm env₂ (loadReports dm env₁ c p).cache p).apiCalls = 0)
    ∧ ∀ (senv₁ senv₂ : SimpleEnv) (sc : SimpleCache) (q : String),
        sc q = none → senv₂.now - senv₁.now < CACHE_DURATION_SIMPLE_MS →
        (loadReportsSimple senv₂ (loadReportsSimple senv₁ sc q).2.1 q).1
            = (loadReportsSimple senv₁ sc q).1
        ∧ (loadReportsSimple senv₂ (loadReportsSimple senv₁ sc q).2.1 q).2.2 = 0 := by
  constructor
  · obtain ⟨d, hret, hcache⟩ := loadReports_miss_ok dm env₁ c p h₁g h₁s1 h₁s2 hmiss
    rw [hcache, hret]
    have hhit : redisGet (redisSetEx c env₁.now env₁.cacheDuration (REPORTS_KEY p) d)
        env₂.now (REPORTS_KEY p) = some d := by
      rw [redisGet_setEx_self]
      simp [hwin]
    constructor
    · simp only [loadReports, h₂g, hhit]
    · simp only [loadReports, h₂g, hhit]
  · intro senv₁ senv₂ sc q hq hswin
    rcases hl : senv₁.listResult with e | itemsOpt <;>
      simp [loadReportsSimple, fetchSimple, hq, hl, hswin]

/-- C7 witness: concrete double call in both implementations — the second
call returns the first call's payload with zero API calls. -/
theorem c7_witness :
    ((loadReports jsDateModel c7Env₂
          (loadReports jsDateModel c7Env₁ (fun _ => none) "vulnerabilityreports").cache
          "vulnerabilityreports").ret
        = (loadReports jsDateModel c7Env₁ (fun _ => none) "vulnerabilityreports").ret
      ∧ (loadReports jsDateModel c7Env₂
          (loadReports jsDateModel c7Env₁ (fun _ => none) "vulnerabilityreports").cache
          "vulnerabilityreports").apiCalls = 0)
    ∧ ((loadReportsSimple c7SimpleEnv₂
          (loadReportsSimple c7SimpleEnv₁ (fun _ => none) "vulnerabilityreports").2.1
          "vulnerabilityreports").1
        = (loadReportsSimple c7SimpleEnv₁ (fun _ => none) "vulnerabilityreports").1
      ∧ (loadReportsSimple c7SimpleEnv₂
          (loadReportsSimple c7SimpleEnv₁ (fun _ => none) "vulnerabilityreports").2.1
          "vulnerabilityreports").2.2 = 0) := by
  have h := c7_second_call_served_from_cache jsDateModel c7Env₁ c7Env₂
    (fun _ => none) "vulnerabilityreports" rfl rfl rfl rfl rfl (by decide)
  exact ⟨h.1, h.2 c7SimpleEnv₁ c7SimpleEnv₂ (fun _ => none) "vulnerabilityreports"
    rfl (by decide)⟩

/-- Any payload returned through the catch block satisfies the scope
invariant: its scope is `Unknown` and its error field is populated. -/
theorem scopeOK_loadCatch (env : LoadEnv) (c : ReportsCache) (p msg : String)
    (calls : Nat) (d : ReportsData)
    (hret : (loadCatch env c p msg calls).ret = .ok d) : scopeOK d := by
  rcases hs2 : env.setFault2 with _ | e₂
  · simp only [loadCatch, hs2] at hret
    cases hret
    exact ⟨.inr (.inr rfl), fun _ => by simp [errorPayload]⟩
  · simp only [loadCatch, hs2] at hret
    exact absurd hret (by simp)

/-- C8: provided the cluster API reports only kubernetes-legal scopes
(`Cluster`, `Namespaced`, or an absent scope) and every cached payload was
itself produced under the invariant, every `ReportsData` returned by
`loadReports` has scope `Cluster`, `Namespaced` or `Unknown`, with
`Unknown` only alongside a populated error field. -/
theorem c8_scope_invariant (dm : DateModel) (env : LoadEnv) (c : ReportsCache) (p : String)
    (hc : ∀ k expiry d, c k = some (expiry, d) → scopeOK d)
    (hapi : ∀ r s, env.getCRD = .ok r → r.spec = some s →
        s.scope = "" ∨ s.scope = "Cluster" ∨ s.scope = "Namespaced")
    (d : ReportsData) (hret : (loadReports dm env c p).ret = .ok d) : scopeOK d := by
  rcases hg : env.getFault with _ | e
  · rcases hrg : redisGet c env.now (REPORTS_KEY p) with _ | d'
    · rcases hcrd : env.getCRD with e | crdResponse
      · simp only [loadReports, hg, hrg, hcrd] at hret
        exact scopeOK_loadCatch env c p _ _ d hret
      · rcases hspec : crdResponse.spec with _ | crdSpec
        · simp only [loadReports, hg, hrg, hcrd, hspec] at hret
          exact scopeOK_loadCatch env c p _ _ d hret
        · rcases hvi : crdSpec.versions.find? (fun v => v.name == "v1alpha1") with _ | versionInfo
          · simp only [loadReports, hg, hrg, hcrd, hspec, hvi] at hret
            exact scopeOK_loadCatch env c p _ _ d hret
          · rcases hs1 : env.setFault1 with _ | e₁
            · simp only [loadReports, hg, hrg, hcrd, hspec, hvi, hs1] at hret
              cases hret
              rcases hapi crdResponse crdSpec hcrd hspec with h | h | h <;>
                simp only [scopeOK, h] <;> decide
            · simp only [loadReports, hg, hrg, hcrd, hspec, hvi, hs1] at hret
              exact scopeOK_loadCatch env c p _ _ d hret
    · simp only [loadReports, hg, hrg] at hret
      cases hret
      unfold redisGet at hrg
      rcases hck : c (REPORTS_KEY p) with _ | pe
      · rw [hck] at hrg
        exact absurd hrg (by simp)
      · obtain ⟨expiry, dd⟩ := pe
        rw [hck] at hrg
        have hrg' : (if env.now < expiry then some dd else none) = some d := hrg
        by_cases ht : env.now < expiry
        · rw [if_pos ht] at hrg'
          cases hrg'
          exact hc _ expiry _ hck
        · rw [if_neg ht] at hrg'
          exact absurd hrg' (by simp)
  · simp only [loadReports, hg] at hret
    exact absurd hret (by simp)

/-- C8 witness: the invariant holds for the payload of a concrete
successful run against an empty cache. -/
theorem c8_witness :
    scopeOK { manifests := [], clusterName := "prod", scope := "Namespaced",
              error := none, resource := some "vulnerabilityreports" } := by
  refine c8_scope_invariant jsDateModel c8Env (fun _ => none) "vulnerabilityreports"
    (fun k expiry d h => by cases h) ?_ _ rfl
  rintro r s hr hs
  cases hr
  cases hs
  exact .inr (.inr rfl)

/-- C9 counterexample: after a cache miss with a failed discovery fetch,
`listAllAquaSecurityCRDs` completes (returning an empty list) but creates
no cache entry at all — the discovery key family is not negative-cached. -/
theorem c9_counterexample :
    (listAllAquaSecurityCRDs c9Env none).ret = .ok []
    ∧ (listAllAquaSecurityCRDs c9Env none).cache = none :=
  ⟨rfl, rfl⟩

/-- C9 (amended): on a cache miss the reports key is written after the
fetch completes whether it succeeded or failed, while the discovery key is
written only when its fetch (and store) succeeds and is left untouched on
a fetch failure; expiry uses the configured duration — defaulting to 1800
seconds in the primary implementation and fixed at 300 seconds (300000 ms)
in the simplified variant — and every write is a full overwrite. -/
theorem c9_amended_cache_lifecycle :
    (∀ (dm : DateModel) (env : LoadEnv) (c : ReportsCache) (p : String),
        env.getFault = none → env.setFault1 = none → env.setFault2 = none →
        redisGet c env.now (REPORTS_KEY p) = none →
        ∃ d, (loadReports dm env c p).ret = .ok d
          ∧ (loadReports dm env c p).cache (REPORTS_KEY p)
              = some (env.now + env.cacheDuration, d))
    ∧ (∀ (env : ListCRDsEnv) (c : CrdsCache) (itemsOpt : Option (List CRDItem)),
        env.getFault = none → env.setFault = none → crdsGet c env.now = none →
        env.listCRDs = .ok itemsOpt →
        (listAllAquaSecurityCRDs env c).cache
          = some (env.now + env.cacheDuration, aquaFilterMap (itemsOpt.getD [])))
    ∧ (∀ (env : ListCRDsEnv) (c : CrdsCache) (e : String),
        env.getFault = none → crdsGet c env.now = none → env.listCRDs = .error e →
        (listAllAquaSecurityCRDs env c).cache = c)
    ∧ CACHE_DURATION none = some 1800
    ∧ CACHE_DURATION_SIMPLE_MS = 300 * 1000
    ∧ ∀ (c : ReportsCache) (now ttl : Nat) (k : String) (d : ReportsData),
        redisSetEx c now ttl k d k = some (now + ttl, d) := by
  refine ⟨?_, ?_, ?_, by decide, by decide, ?_⟩
  · intro dm env c p hget hs1 hs2 hmiss
    obtain ⟨d, hret, hcache⟩ := loadReports_miss_ok dm env c p hget hs1 hs2 hmiss
    refine ⟨d, hret, ?_⟩
    rw [hcache]
    simp [redisSetEx]
  · intro env c itemsOpt hget hset hmiss hlist
    simp only [listAllAquaSecurityCRDs, hget, hmiss, hlist, hset]
  · intro env c e hget hmiss hlist
    simp only [listAllAquaSecurityCRDs, hget, hmiss, hlist]
  · intro c now ttl k d
    simp [redisSetEx]

/-- C9 amended witness: concrete failed runs — the reports key is written
with the configured TTL while the discovery key stays absent. -/
theorem c9_amended_witness :
    (loadReports jsDateModel c9wEnv (fun _ => none) "vulnerabilityreports").cache
        (REPORTS_KEY "vulnerabilityreports")
      = some (7 + 1800, errorPayload "vulnerabilityreports" "not found")
    ∧ (listAllAquaSecurityCRDs c9wListEnv none).cache = none := by
  have h₁ := c9_amended_cache_lifecycle.1 jsDateModel c9wEnv (fun _ => none)
    "vulnerabilityreports" rfl rfl rfl rfl
  have h₂ := c9_amended_cache_lifecycle.2.2.1 c9wListEnv none "etcdserver timed out"
    rfl rfl rfl
  exact ⟨rfl, h₂⟩

end TrivyGlass

